import Mathlib

/-!
Shallow embedding of the SimpleTodoApp service (FastAPI + SQLAlchemy).

The program's state is modelled as plain lists of rows:
  * `List Users` for the `users` table (src/models/models.py, class `Users`);
  * `List Todo`  for the `todos` table (src/models/models.py, class `Todos`).

Endpoint handlers become functions from the request data and the current
table contents to an HTTP-level result.  Handlers that mutate the store
return a pair `(response, new store)`; on an error response the store is
the one passed in, mirroring the fact that the Python handlers raise
`HTTPException` before calling `db.commit()`.  HTTP statuses are plain
naturals (401, 404, 422, 500).  Time is an explicit `Nat` parameter
(epoch seconds), standing for `datetime.utcnow()`.

Password hashing (`passlib` bcrypt) is abstracted as a parameter
`hash : String → String`; `bcrypt_context.verify p h` is modelled as
`hash p == h`.

JWTs (python-jose) are modelled as a payload plus the key the token was
signed with; `jwt.decode` checks that the verification key equals the
signing key and that the `exp` claim has not passed (python-jose raises
`ExpiredSignatureError`, a `JWTError`, when `exp < now`).  Dictionary
payloads become a record of `Option` fields: a field is `none` exactly
when the corresponding key is absent from the Python dict.
-/

namespace SimpleTodoApp

/-- A row of the `todos` table (src/models/models.py, class `Todos`).
`owner_id` is a nullable foreign key, hence `Option Nat`. -/
structure Todo where
  id : Nat
  title : String
  description : String
  priority : Int
  completed : Bool
  owner_id : Option Nat
  deriving Repr, DecidableEq

/-- The request body of the todo endpoints (src/routers/todos.py,
class `TodoRequest`). -/
structure TodoRequest where
  title : String
  description : String
  priority : Int
  completed : Bool
  deriving Repr, DecidableEq

/-- The pydantic `Field` constraints on `TodoRequest`
(src/routers/todos.py): `title` min_length 3, `description`
min_length 1 / max_length 100, `priority` between 1 and 5. -/
def TodoRequest.Valid (r : TodoRequest) : Prop :=
  3 ≤ r.title.length ∧ 1 ≤ r.description.length ∧ r.description.length ≤ 100 ∧
    1 ≤ r.priority ∧ r.priority ≤ 5

instance (r : TodoRequest) : Decidable r.Valid := by
  unfold TodoRequest.Valid; infer_instance

/-- SQLAlchemy's `Query.all()`: it always returns a list object (possibly
empty), never `None`.  The `Option` return type lets the embedding state
the `is None` test of `read_all_todos` exactly as the source writes it. -/
def sqlalchemy_all (store : List Todo) : Option (List Todo) :=
  some store

/-- GET /api/todos/ (src/routers/todos.py, `read_all_todos`): raises 404
if `db.query(Todos).all() is None`, else returns the rows.  There is no
authentication dependency on this endpoint. -/
def read_all_todos (store : List Todo) : Except Nat (List Todo) :=
  match sqlalchemy_all store with
  | none => .error 404
  | some ts => .ok ts

/-- GET /api/todos/{todo_id} (src/routers/todos.py, `get_todo_by_id`):
first row whose id matches, 404 when there is none.  No authentication
dependency. -/
def get_todo_by_id (store : List Todo) (todo_id : Nat) : Except Nat Todo :=
  match store.find? (fun t => t.id == todo_id) with
  | none => .error 404
  | some t => .ok t

/-- `Todos(**todo.model_dump())` in `create_new_todo`: the four request
fields are set, the id comes from the autoincrement primary key, and
`owner_id` is not passed, so the column keeps its NULL default. -/
def todoFromRequest (nextId : Nat) (r : TodoRequest) : Todo :=
  { id := nextId
    title := r.title
    description := r.description
    priority := r.priority
    completed := r.completed
    owner_id := none }

/-- POST /api/todos/create (src/routers/todos.py, `create_new_todo`):
adds the new row and commits.  `nextId` is the id the autoincrement
primary key assigns.  No caller identity is taken and no owner is
stamped. -/
def create_new_todo (store : List Todo) (nextId : Nat) (r : TodoRequest) :
    List Todo :=
  store ++ [todoFromRequest nextId r]

/-- The four assignments in `update_todo_by_id`: overwrite title,
description, priority and completed, keeping every other column. -/
def applyTodoRequest (r : TodoRequest) (t : Todo) : Todo :=
  { t with
    title := r.title
    description := r.description
    priority := r.priority
    completed := r.completed }

/-- Mutating the row object returned by `.first()`: only the first row
whose id matches is updated. -/
def updateFirstById (todo_id : Nat) (r : TodoRequest) : List Todo → List Todo
  | [] => []
  | t :: ts =>
    if t.id = todo_id then applyTodoRequest r t :: ts
    else t :: updateFirstById todo_id r ts

/-- PUT update/{todo_id} (src/routers/todos.py, `update_todo_by_id`):
404 when no row matches the id, otherwise the matched row's four mutable
fields are overwritten and committed. -/
def update_todo_by_id (store : List Todo) (r : TodoRequest) (todo_id : Nat) :
    Except Nat Unit × List Todo :=
  match store.find? (fun t => t.id == todo_id) with
  | none => (.error 404, store)
  | some _ => (.ok (), updateFirstById todo_id r store)

/-- DELETE /api/todos/delete/{todo_id} (src/routers/todos.py,
`delete_todo_by_id`): 404 when no row matches, otherwise every row with
that id is deleted. -/
def delete_todo_by_id (store : List Todo) (todo_id : Nat) :
    Except Nat Unit × List Todo :=
  match store.find? (fun t => t.id == todo_id) with
  | none => (.error 404, store)
  | some _ => (.ok (), store.filter (fun t => !(t.id == todo_id)))

/-- A row of the `users` table (src/models/models.py, class `Users`). -/
structure Users where
  id : Nat
  email : String
  username : String
  first_name : String
  last_name : String
  hashed_password : String
  is_active : Bool
  role : String
  deriving Repr, DecidableEq

/-- The registration body (src/routers/auth.py, class
`CreateUserRequest`). -/
structure CreateUserRequest where
  username : String
  email : String
  first_name : String
  last_name : String
  password : String
  role : String
  deriving Repr, DecidableEq

/-- Errors raised by the relational store itself. -/
inductive DbError where
  | conflict
  deriving Repr, DecidableEq

/-- The database commit of an insert into `users`: the columns `email`
and `username` are declared `unique=True` (src/models/models.py), so the
engine rejects a row duplicating either and the transaction leaves the
table unchanged. -/
def commit_insert_user (db : List Users) (u : Users) :
    Except DbError Unit × List Users :=
  if db.any (fun v => v.username == u.username || v.email == u.email) then
    (.error .conflict, db)
  else
    (.ok (), db ++ [u])

/-- POST /api/auth/ (src/routers/auth.py, `create_user`): builds a
`Users` row with the bcrypt hash of the password and `is_active=True`,
adds it and commits.  `nextId` is the autoincrement id. -/
def create_user (db : List Users) (nextId : Nat) (req : CreateUserRequest)
    (hash : String → String) : Except DbError Unit × List Users :=
  commit_insert_user db
    { id := nextId
      email := req.email
      username := req.username
      first_name := req.first_name
      last_name := req.last_name
      hashed_password := hash req.password
      is_active := true
      role := req.role }

/-- src/routers/auth.py, `is_user_authenticated`: look the user up by
username; `False` (here `none`) when absent or when the bcrypt
verification fails. -/
def is_user_authenticated (username password : String) (db : List Users)
    (hash : String → String) : Option Users :=
  match db.find? (fun u => u.username == username) with
  | none => none
  | some u => if hash password == u.hashed_password then some u else none

/-- The decoded JWT payload.  The Python code builds the dict
`{"sub": username, "id": user_id}` and then adds `"exp"`; a field is
`none` exactly when its key is absent.  `role` is carried so that the
absence of a `"role"` key is expressible: no code path of
src/routers/auth.py ever sets it. -/
structure JwtPayload where
  sub : Option String
  id : Option Nat
  role : Option String
  exp : Nat
  deriving Repr, DecidableEq

/-- A signed token: the payload together with the key it was signed
with.  `jwt.decode` succeeds only when the verification key equals the
signing key, which this model captures by comparing `sig` with the
decoder's key. -/
structure Jwt where
  payload : JwtPayload
  sig : String
  deriving Repr, DecidableEq

inductive JwtError where
  | invalidSignature
  | expired
  deriving Repr, DecidableEq

/-- python-jose `jwt.decode`: signature check, then expiry check
(`ExpiredSignatureError` when the `exp` claim is in the past). -/
def jwt_decode (tok : Jwt) (key : String) (now : Nat) :
    Except JwtError JwtPayload :=
  if tok.sig = key then
    if tok.payload.exp < now then .error .expired else .ok tok.payload
  else .error .invalidSignature

/-- src/routers/auth.py, `create_access_token`: the payload is
`{"sub": username, "id": user_id}` plus `"exp" = utcnow() + delta`;
no `"role"` key is ever added.  `now` stands for `datetime.utcnow()`
and `delta` for `expires_delta`, in seconds. -/
def create_access_token (username : String) (user_id : Nat) (now delta : Nat)
    (key : String) : Jwt :=
  { payload :=
      { sub := some username
        id := some user_id
        role := none
        exp := now + delta }
    sig := key }

/-- The dict returned by `get_current_user`:
`{"username": ..., "id": ...}`.  `role` records whether a `"role"` key
is present — `get_current_user` never puts one in, so it is `none` on
every path. -/
structure UserClaims where
  username : String
  id : Nat
  role : Option String
  deriving Repr, DecidableEq

/-- src/routers/auth.py, `get_current_user`: decode the token (401 on
`JWTError`), read `sub` and `id` (401 when either is missing), and
return only the username and id — the returned dict has no `"role"`
key even when the payload had one. -/
def get_current_user (tok : Jwt) (key : String) (now : Nat) :
    Except Nat UserClaims :=
  match jwt_decode tok key now with
  | .error _ => .error 401
  | .ok p =>
    match p.sub, p.id with
    | some u, some i => .ok { username := u, id := i, role := none }
    | some _, none => .error 401
    | none, _ => .error 401

/-- POST /api/auth/token (src/routers/auth.py,
`login_for_access_token`): 401 unless `is_user_authenticated` returns a
user, else a token for that user with `timedelta(minutes=60)`, i.e.
3600 seconds. -/
def login_for_access_token (db : List Users) (hash : String → String)
    (username password : String) (now : Nat) (key : String) :
    Except Nat Jwt :=
  match is_user_authenticated username password db hash with
  | none => .error 401
  | some u => .ok (create_access_token u.username u.id now (60 * 60) key)

/-- GET /api/admin/todos (src/routers/admin.py, `read_all_todos`):
401 unless `user.get("role") == "admin"` (the `not user` disjunct cannot
fire, since `get_current_user` always returns a non-empty dict), then
404 on an empty result (`if not todos`), else the rows. -/
def admin_read_all_todos (user : UserClaims) (store : List Todo) :
    Except Nat (List Todo) :=
  if user.role = some "admin" then
    match store with
    | [] => .error 404
    | ts => .ok ts
  else .error 401

/-- DELETE /api/admin/todo/delete/{todo_id} (src/routers/admin.py,
`delete_todo_by_id`): 401 unless the claims carry role `"admin"`, 404
when no row matches the id, else the row is deleted. -/
def admin_delete_todo_by_id (user : UserClaims) (store : List Todo)
    (todo_id : Nat) : Except Nat Unit × List Todo :=
  if user.role = some "admin" then
    match store.find? (fun t => t.id == todo_id) with
    | none => (.error 404, store)
    | some _ => (.ok (), store.filter (fun t => !(t.id == todo_id)))
  else (.error 401, store)

/-- The composition FastAPI performs for the admin delete route: resolve
the caller with `get_current_user` (its `HTTPException` becomes the
response), then run the handler. -/
def admin_delete_pipeline (tok : Jwt) (key : String) (now : Nat)
    (store : List Todo) (todo_id : Nat) : Except Nat Unit × List Todo :=
  match get_current_user tok key now with
  | .error e => (.error e, store)
  | .ok user => admin_delete_todo_by_id user store todo_id

/-- The password-change body (src/routers/users.py, class
`UserVerification`): `new_password` carries
`Field(min_length=6, max_length=50)`. -/
structure UserVerification where
  password : String
  new_password : String
  deriving Repr, DecidableEq

/-- The pydantic validation of `UserVerification`: 6 ≤ length of
`new_password` ≤ 50. -/
def UserVerification.validB (v : UserVerification) : Bool :=
  6 ≤ v.new_password.length && v.new_password.length ≤ 50

/-- PUT /api/user/change_password (src/routers/users.py,
`change_password`): look the caller up by id (the Python code would
crash with a server error if the row were missing), 401 when the bcrypt
verification of the old password fails, else store the hash of the new
password. -/
def change_password (hash : String → String) (user : UserClaims)
    (db : List Users) (v : UserVerification) :
    Except Nat Unit × List Users :=
  match db.find? (fun u => u.id == user.id) with
  | none => (.error 500, db)
  | some usr =>
    if hash v.password == usr.hashed_password then
      (.ok (),
        db.map (fun u =>
          if u.id == user.id then { u with hashed_password := hash v.new_password }
          else u))
    else (.error 401, db)

/-- The route as FastAPI serves it: the body is validated against
`UserVerification` (422 on failure) before the handler runs, so an
invalid body is rejected without any password check. -/
def handle_change_password (hash : String → String) (user : UserClaims)
    (db : List Users) (v : UserVerification) :
    Except Nat Unit × List Users :=
  if v.validB then change_password hash user db v else (.error 422, db)

/-! Concrete inputs used by counterexamples and witnesses. -/

/-- A todo row with id 1 owned by user 2. -/
def exampleTodo : Todo :=
  { id := 1, title := "Buy milk", description := "2%", priority := 2,
    completed := false, owner_id := some 2 }

/-- A second todo row owned by user 2, with id 2. -/
def exampleTodo2 : Todo :=
  { id := 2, title := "Walk dog", description := "park", priority := 3,
    completed := true, owner_id := some 2 }

/-- The request body of the end-to-end scenario in the spec. -/
def exampleReq : TodoRequest :=
  { title := "Buy milk", description := "2%", priority := 2, completed := false }

/-- A stand-in for the bcrypt hash in concrete witnesses. -/
def exampleHash (s : String) : String :=
  s ++ "#h"

/-- A registered admin user whose stored hash matches password `pw`
under `exampleHash`. -/
def exampleAlice : Users :=
  { id := 1, email := "alice@example.com", username := "alice",
    first_name := "Alice", last_name := "A", hashed_password := "pw#h",
    is_active := true, role := "admin" }

/-! Theorems for the claims. -/

/-- C1: the spec says an admin caller's DELETE /api/admin/todo/delete/{id}
on another user's todo succeeds.  In the code every token produced by
`create_access_token` carries no role claim, and `get_current_user` never
returns a `"role"` key, so the admin handler's `user.get("role") != "admin"`
test rejects every caller: the whole pipeline yields 401 and leaves the
store untouched for every issued token that passes signature and expiry
checks. -/
theorem claim_C1_admin_delete_rejects_every_issued_token
    (u : String) (i t d now : Nat) (key : String)
    (store : List Todo) (tid : Nat) (hlive : ¬ t + d < now) :
    admin_delete_pipeline (create_access_token u i t d key) key now store tid =
      (.error 401, store) := by
  simp [admin_delete_pipeline, get_current_user, jwt_decode,
    create_access_token, admin_delete_todo_by_id, hlive]

/-- Witness for C1: the concrete admin scenario — caller id 1, a fresh
token, todo 1 owned by user 2 — is answered 401 with the store
unchanged. -/
theorem claim_C1_witness :
    admin_delete_pipeline (create_access_token "alice" 1 0 3600 "secret")
      "secret" 0 [exampleTodo] 1 = (.error 401, [exampleTodo]) :=
  claim_C1_admin_delete_rejects_every_issued_token "alice" 1 0 3600 0 "secret"
    [exampleTodo] 1 (by decide)

/-- C2: login issues a token whose payload carries the subject username,
the user id and an expiry 60 minutes after issuance — but no role claim:
`create_access_token` only ever writes `sub`, `id` and `exp`, although
the spec says the role is encoded and src/routers/admin.py reads it. -/
theorem claim_C2_token_payload (db : List Users) (hash : String → String)
    (uname pw : String) (now : Nat) (key : String) (u : Users)
    (hauth : is_user_authenticated uname pw db hash = some u) :
    login_for_access_token db hash uname pw now key =
      .ok (create_access_token u.username u.id now (60 * 60) key) ∧
    (create_access_token u.username u.id now (60 * 60) key).payload.sub =
      some u.username ∧
    (create_access_token u.username u.id now (60 * 60) key).payload.id =
      some u.id ∧
    (create_access_token u.username u.id now (60 * 60) key).payload.exp =
      now + 60 * 60 ∧
    (create_access_token u.username u.id now (60 * 60) key).payload.role =
      none := by
  unfold login_for_access_token
  rw [hauth]
  exact ⟨rfl, rfl, rfl, rfl, rfl⟩

/-- Witness for C2: logging in as the concrete admin user yields a token
whose payload has sub `alice`, id 1, expiry 1000 + 3600, and no role. -/
theorem claim_C2_witness :
    login_for_access_token [exampleAlice] exampleHash "alice" "pw" 1000 "secret" =
      .ok (create_access_token exampleAlice.username exampleAlice.id 1000
        (60 * 60) "secret") ∧
    (create_access_token exampleAlice.username exampleAlice.id 1000
      (60 * 60) "secret").payload.sub = some exampleAlice.username ∧
    (create_access_token exampleAlice.username exampleAlice.id 1000
      (60 * 60) "secret").payload.id = some exampleAlice.id ∧
    (create_access_token exampleAlice.username exampleAlice.id 1000
      (60 * 60) "secret").payload.exp = 1000 + 60 * 60 ∧
    (create_access_token exampleAlice.username exampleAlice.id 1000
      (60 * 60) "secret").payload.role = none :=
  claim_C2_token_payload [exampleAlice] exampleHash "alice" "pw" 1000 "secret"
    exampleAlice rfl

/-- Counterexample for C3: GET /api/todos/ with no bearer token at all
returns the store's rows with status 200 — it does not fail with 401.
The handler takes no authentication dependency, so no token appears
anywhere in the call. -/
theorem claim_C3_counterexample :
    read_all_todos [exampleTodo] = .ok [exampleTodo] ∧
    read_all_todos [exampleTodo] ≠ .error 401 := by
  refine ⟨rfl, ?_⟩
  intro h
  simp [read_all_todos, sqlalchemy_all] at h

/-- C3 amended: only the admin and user routers require a bearer token;
the todo router's operations take no Authorization token, and in
particular the list operation succeeds on every store with no
authentication at all. -/
theorem claim_C3_todos_router_requires_no_token (store : List Todo) :
    read_all_todos store = .ok store :=
  rfl

/-- C4: on an empty store GET /api/todos/ returns 200 with the empty
array — its `is None` guard is dead because `Query.all()` returns a
list — while the admin list (whose guard is `if not todos`) does return
404.  This evaluates both handlers at the failing input (empty store). -/
theorem claim_C4_empty_store_evaluation :
    read_all_todos ([] : List Todo) = .ok [] ∧
    admin_read_all_todos
      { username := "alice", id := 1, role := some "admin" } [] =
      .error 404 :=
  ⟨rfl, rfl⟩

/-- Counterexample for C5: creating the spec's example todo as caller
id 1 and reading it back yields a row whose `owner_id` is `none`, not
the creator's id — `create_new_todo` takes no caller identity and stamps
no owner. -/
theorem claim_C5_counterexample :
    get_todo_by_id (create_new_todo [] 1 exampleReq) 1 =
      .ok (todoFromRequest 1 exampleReq) ∧
    (todoFromRequest 1 exampleReq).owner_id = none ∧
    (todoFromRequest 1 exampleReq).owner_id ≠ some 1 := by
  refine ⟨rfl, rfl, ?_⟩
  intro h
  simp [todoFromRequest] at h

/-- C5 amended: create followed by get on the fresh id returns a todo
equal to the submitted fields in title, description, priority and
completed, but with `owner_id` left unset (`none`): no owner is stamped
from any caller scope. -/
theorem claim_C5_create_then_get (store : List Todo) (nextId : Nat)
    (r : TodoRequest) (hvalid : r.Valid)
    (hfresh : ∀ t ∈ store, t.id ≠ nextId) :
    get_todo_by_id (create_new_todo store nextId r) nextId =
      .ok (todoFromRequest nextId r) ∧
    (todoFromRequest nextId r).title = r.title ∧
    (todoFromRequest nextId r).description = r.description ∧
    (todoFromRequest nextId r).priority = r.priority ∧
    (todoFromRequest nextId r).completed = r.completed ∧
    (todoFromRequest nextId r).owner_id = none := by
  have hnone : store.find? (fun t => t.id == nextId) = none := by
    rw [List.find?_eq_none]
    intro x hx
    simpa using hfresh x hx
  refine ⟨?_, rfl, rfl, rfl, rfl, rfl⟩
  simp [get_todo_by_id, create_new_todo, hnone, todoFromRequest]

/-- Witness for C5: the concrete create-then-get round trip on the empty
store with the spec's example request. -/
theorem claim_C5_witness :
    get_todo_by_id (create_new_todo [] 1 exampleReq) 1 =
      .ok (todoFromRequest 1 exampleReq) ∧
    (todoFromRequest 1 exampleReq).title = exampleReq.title ∧
    (todoFromRequest 1 exampleReq).description = exampleReq.description ∧
    (todoFromRequest 1 exampleReq).priority = exampleReq.priority ∧
    (todoFromRequest 1 exampleReq).completed = exampleReq.completed ∧
    (todoFromRequest 1 exampleReq).owner_id = none :=
  claim_C5_create_then_get [] 1 exampleReq (by decide) (by decide)

/-- C6: registering into an empty store succeeds and adds one row; a
second registration whose username or email duplicates the first fails
with the store's conflict error and adds no row. -/
theorem claim_C6_duplicate_registration (r1 r2 : CreateUserRequest)
    (hash : String → String) (id1 id2 : Nat)
    (hdup : r2.username = r1.username ∨ r2.email = r1.email) :
    (create_user [] id1 r1 hash).1 = .ok () ∧
    (create_user [] id1 r1 hash).2.length = 1 ∧
    (create_user ((create_user [] id1 r1 hash).2) id2 r2 hash).1 =
      .error .conflict ∧
    (create_user ((create_user [] id1 r1 hash).2) id2 r2 hash).2 =
      (create_user [] id1 r1 hash).2 := by
  refine ⟨rfl, rfl, ?_, ?_⟩ <;>
    rcases hdup with h | h <;>
      simp [create_user, commit_insert_user, h]

/-- Witness for C6: registering `alice` twice, the second request with a
fresh email but the same username, hits the conflict branch. -/
theorem claim_C6_witness :
    (create_user []
      1 { username := "alice", email := "alice@example.com",
          first_name := "Alice", last_name := "A", password := "pw",
          role := "admin" } exampleHash).1 = .ok () ∧
    (create_user []
      1 { username := "alice", email := "alice@example.com",
          first_name := "Alice", last_name := "A", password := "pw",
          role := "admin" } exampleHash).2.length = 1 ∧
    (create_user ((create_user []
      1 { username := "alice", email := "alice@example.com",
          first_name := "Alice", last_name := "A", password := "pw",
          role := "admin" } exampleHash).2)
      2 { username := "alice", email := "other@example.com",
          first_name := "B", last_name := "C", password := "pw2",
          role := "user" } exampleHash).1 = .error .conflict ∧
    (create_user ((create_user []
      1 { username := "alice", email := "alice@example.com",
          first_name := "Alice", last_name := "A", password := "pw",
          role := "admin" } exampleHash).2)
      2 { username := "alice", email := "other@example.com",
          first_name := "B", last_name := "C", password := "pw2",
          role := "user" } exampleHash).2 =
      (create_user []
        1 { username := "alice", email := "alice@example.com",
            first_name := "Alice", last_name := "A", password := "pw",
            role := "admin" } exampleHash).2 :=
  claim_C6_duplicate_registration
    { username := "alice", email := "alice@example.com",
      first_name := "Alice", last_name := "A", password := "pw",
      role := "admin" }
    { username := "alice", email := "other@example.com",
      first_name := "B", last_name := "C", password := "pw2",
      role := "user" }
    exampleHash 1 2 (Or.inl rfl)

/-- C7: a token issued by `create_access_token` and verified immediately
(at issuance time) yields claims whose id equals the user's id; once the
expiry instant has passed, verification fails with 401. -/
theorem claim_C7_issue_verify (u : String) (i t d now : Nat) (key : String) :
    get_current_user (create_access_token u i t d key) key t =
      .ok { username := u, id := i, role := none } ∧
    (t + d < now →
      get_current_user (create_access_token u i t d key) key now =
        .error 401) := by
  constructor
  · have hlive : ¬ t + d < t := Nat.not_lt.2 (Nat.le_add_right t d)
    simp [get_current_user, jwt_decode, create_access_token, hlive]
  · intro h
    simp [get_current_user, jwt_decode, create_access_token, h]

/-- Witness for C7: a token for `alice` (id 1) issued at time 0 with a
10-second expiry verifies at time 0 with subject id 1, and fails with
401 at time 11. -/
theorem claim_C7_witness :
    get_current_user (create_access_token "alice" 1 0 10 "k") "k" 0 =
      .ok { username := "alice", id := 1, role := none } ∧
    get_current_user (create_access_token "alice" 1 0 10 "k") "k" 11 =
      .error 401 :=
  ⟨(claim_C7_issue_verify "alice" 1 0 10 11 "k").1,
    (claim_C7_issue_verify "alice" 1 0 10 11 "k").2 (by decide)⟩

/-- C8: updating an id that matches no row answers 404 and returns the
store exactly as it was: no row is created and none is modified. -/
theorem claim_C8_update_missing_id (store : List Todo) (r : TodoRequest)
    (tid : Nat) (h : ∀ t ∈ store, t.id ≠ tid) :
    update_todo_by_id store r tid = (.error 404, store) := by
  have hnone : store.find? (fun t => t.id == tid) = none := by
    rw [List.find?_eq_none]
    intro x hx
    simpa using h x hx
  simp [update_todo_by_id, hnone]

/-- Witness for C8: updating id 2 in a store holding only todo 1 answers
404 with the store unchanged. -/
theorem claim_C8_witness :
    update_todo_by_id [exampleTodo] exampleReq 2 = (.error 404, [exampleTodo]) :=
  claim_C8_update_missing_id [exampleTodo] exampleReq 2 (by decide)

/-- With pairwise-distinct ids (the primary-key invariant of the `todos`
table) mutating the row `.first()` returned is the same as rewriting the
unique matching row in place. -/
theorem updateFirstById_eq_map (r : TodoRequest) (tid : Nat) :
    ∀ store : List Todo, store.Pairwise (fun a b => a.id ≠ b.id) →
      updateFirstById tid r store =
        store.map (fun t => if t.id = tid then applyTodoRequest r t else t)
  | [], _ => rfl
  | t :: ts, h => by
    rcases List.pairwise_cons.1 h with ⟨hhead, htail⟩
    by_cases ht : t.id = tid
    · have hrest : ts.map
          (fun x => if x.id = tid then applyTodoRequest r x else x) = ts := by
        have := List.map_congr_left
          (f := fun x => if x.id = tid then applyTodoRequest r x else x)
          (g := fun x : Todo => x)
          (l := ts) (fun b hb => by
            have : b.id ≠ tid := fun hb2 => hhead b hb (ht.trans hb2.symm)
            simp [this])
        simpa using this
      simp [updateFirstById, ht, hrest]
    · simp [updateFirstById, ht, updateFirstById_eq_map r tid ts htail]

/-- C9: when some row matches the id, update succeeds; the resulting
store rewrites exactly the matching row with the four submitted fields
and leaves every other row untouched, and every row keeps its id and its
owner_id. -/
theorem claim_C9_update_frame (store : List Todo) (r : TodoRequest)
    (tid : Nat) (hmem : ∃ t ∈ store, t.id = tid)
    (huniq : store.Pairwise (fun a b => a.id ≠ b.id)) :
    (update_todo_by_id store r tid).1 = .ok () ∧
    (update_todo_by_id store r tid).2 =
      store.map (fun t => if t.id = tid then applyTodoRequest r t else t) ∧
    (update_todo_by_id store r tid).2.map Todo.id = store.map Todo.id ∧
    (update_todo_by_id store r tid).2.map Todo.owner_id =
      store.map Todo.owner_id := by
  have hsome : (store.find? (fun t => t.id == tid)).isSome := by
    rw [List.find?_isSome]
    rcases hmem with ⟨w, hw, hwid⟩
    exact ⟨w, hw, by simpa using hwid⟩
  rcases Option.isSome_iff_exists.1 hsome with ⟨w, hw⟩
  have hmap := updateFirstById_eq_map r tid store huniq
  refine ⟨by simp [update_todo_by_id, hw], by simp [update_todo_by_id, hw, hmap], ?_, ?_⟩ <;>
    · simp only [update_todo_by_id, hw, hmap, List.map_map]
      refine List.map_congr_left (fun t _ => ?_)
      by_cases ht : t.id = tid <;> simp [ht, applyTodoRequest]

/-- Witness for C9: updating todo 1 in a two-row store rewrites row 1's
four fields, keeps both ids and owners, and leaves row 2 unchanged. -/
theorem claim_C9_witness :
    (update_todo_by_id [exampleTodo, exampleTodo2] exampleReq 1).1 = .ok () ∧
    (update_todo_by_id [exampleTodo, exampleTodo2] exampleReq 1).2 =
      [exampleTodo, exampleTodo2].map
        (fun t => if t.id = 1 then applyTodoRequest exampleReq t else t) ∧
    (update_todo_by_id [exampleTodo, exampleTodo2] exampleReq 1).2.map Todo.id =
      [exampleTodo, exampleTodo2].map Todo.id ∧
    (update_todo_by_id [exampleTodo, exampleTodo2] exampleReq 1).2.map
      Todo.owner_id = [exampleTodo, exampleTodo2].map Todo.owner_id :=
  claim_C9_update_frame [exampleTodo, exampleTodo2] exampleReq 1
    (by exact ⟨exampleTodo, by simp, rfl⟩)
    (by simp [exampleTodo, exampleTodo2])

/-- C10: a password-change request whose new password is shorter than 6
or longer than 50 characters is rejected by the body validation with a
422 before any password verification runs — the outcome is the same for
every hash function and every stored state, and the user table is
unchanged. -/
theorem claim_C10_new_password_length (hash : String → String)
    (user : UserClaims) (db : List Users) (v : UserVerification)
    (h : v.new_password.length < 6 ∨ 50 < v.new_password.length) :
    handle_change_password hash user db v = (.error 422, db) := by
  have hv : v.validB = false := by
    unfold UserVerification.validB
    rcases h with h | h <;> simp [Nat.not_le.2 h]
  simp [handle_change_password, hv]

/-- Witness for C10: a three-character new password is rejected with 422
and the stored row keeps its hash, even though the old password is
correct. -/
theorem claim_C10_witness :
    handle_change_password exampleHash
      { username := "alice", id := 1, role := none } [exampleAlice]
      { password := "pw", new_password := "abc" } =
      (.error 422, [exampleAlice]) :=
  claim_C10_new_password_length exampleHash
    { username := "alice", id := 1, role := none } [exampleAlice]
    { password := "pw", new_password := "abc" } (Or.inl (by decide))

end SimpleTodoApp
